import Mathlib

/-
Verification development for the Hologres search SDK client library:
a shallow embedding of the identifier/literal quoting layer, the
statement rendering of the table facade (insert / upsert / overwrite),
the session manager (HoloConnect) state machine, and the vector-index
introspection path, together with theorems about the claims of the
specification.
-/

namespace HoloSearch

/-- A literal value passed to the backend out-of-band as a positional
parameter.  The SDK never inspects parameter values, it only forwards
them, so an opaque sum of the base kinds suffices. -/
inductive SqlValue where
  | int (i : Int)
  | text (s : String)
deriving DecidableEq, Repr

/-- Join a list of strings with a separator, as the source does with
the comma-space separator when rendering column lists and placeholder
groups. -/
def sepJoin (sep : String) : List String → String
  | [] => ""
  | [x] => x
  | x :: y :: t => x ++ sep ++ sepJoin sep (y :: t)

/-- Number of percent characters in a string: since every placeholder
is the two-character sequence percent-s and identifiers are assumed
percent-free, this counts the positional placeholders of a rendered
statement. -/
def pcount (s : String) : Nat := s.data.count '%'

/-- Modelled from the spec: the identifier quoting layer handles
embedded quote characters by escaping (doubling), never by stripping. -/
def escapeChars : List Char → List Char
  | [] => []
  | c :: cs => if c = '\"' then '\"' :: '\"' :: escapeChars cs else c :: escapeChars cs

/-- Modelled from the spec: render a raw string as a double-quoted
SQL identifier with embedded double quotes doubled. -/
def quoteIdent (s : String) : String := "\"" ++ String.mk (escapeChars s.data) ++ "\""

/-- One parenthesized group of n positional placeholders. -/
def phGroup (n : Nat) : String :=
  "(" ++ sepJoin ", " (List.replicate n "%s") ++ ")"

/-- A parenthesized, comma-separated list of quoted column names. -/
def columnList (cols : List String) : String :=
  "(" ++ sepJoin ", " (cols.map quoteIdent) ++ ")"

/-- Modelled from the spec: the INSERT INTO prefix, with the column
list present exactly when explicit column names were supplied. -/
def insertInto (t : String) (cols : Option (List String)) : String :=
  "INSERT INTO " ++ quoteIdent t ++
    (match cols with
     | some cs => " " ++ columnList cs
     | none => "")

/-- Modelled from the spec: insert_one of the table facade compiles a
single-row INSERT with one placeholder per value and the values, in
order, as the flat parameter tuple. -/
def insert_one (t : String) (vals : List SqlValue) (cols : Option (List String)) :
    String × List SqlValue :=
  (insertInto t cols ++ " VALUES " ++ phGroup vals.length ++ ";", vals)

/-- Modelled from the spec: insert_multi of the table facade compiles
one multi-row INSERT with one parenthesized placeholder group per row
and the row-major flattening of the rows as the flat parameter tuple;
an empty row list produces no statement at all. -/
def insert_multi (t : String) (rows : List (List SqlValue)) (cols : Option (List String)) :
    Option (String × List SqlValue) :=
  if rows.isEmpty then none
  else some
    (insertInto t cols ++ " VALUES " ++
       sepJoin ", " (rows.map fun r => phGroup r.length) ++ ";",
     rows.flatten)

/-- One assignment of the DO UPDATE SET action, referencing the
conflict-excluded row through the EXCLUDED alias. -/
def excludedAssign (c : String) : String :=
  quoteIdent c ++ " = EXCLUDED." ++ quoteIdent c

/-- Modelled from the spec: the ON-CONFLICT action is DO NOTHING when
update is off, and DO UPDATE SET with one EXCLUDED-alias assignment
per update column when update is on. -/
def conflictAction (update : Bool) (updateCols : List String) : String :=
  if update then
    "DO UPDATE SET " ++ sepJoin ", " (updateCols.map excludedAssign)
  else "DO NOTHING"

/-- Modelled from the spec: upsert_one compiles a single-row INSERT
with an ON CONFLICT clause on the index column whose action is given
by conflictAction; updateCols is the resolved update-column subset
(explicit, or auto-discovered when the caller omitted it). -/
def upsert_one (t idx : String) (vals : List SqlValue) (cols : List String)
    (update : Bool) (updateCols : List String) : String × List SqlValue :=
  (insertInto t (some cols) ++ " VALUES " ++ phGroup vals.length ++
     " ON CONFLICT (" ++ quoteIdent idx ++ ") " ++
     conflictAction update updateCols ++ ";",
   vals)

/-- Modelled from the spec: upsert_multi compiles a multi-row INSERT
with the same ON CONFLICT clause as upsert_one. -/
def upsert_multi (t idx : String) (rows : List (List SqlValue)) (cols : List String)
    (update : Bool) (updateCols : List String) : String × List SqlValue :=
  (insertInto t (some cols) ++ " VALUES " ++
     sepJoin ", " (rows.map fun r => phGroup r.length) ++
     " ON CONFLICT (" ++ quoteIdent idx ++ ") " ++
     conflictAction update updateCols ++ ";",
   rows.flatten)

/-- Error taxonomy of the SDK: connection errors, backend query
errors, and caller-side validation errors (the SqlError class). -/
inductive HoloError where
  | connectionError (msg : String)
  | queryError (msg : String)
  | sqlError (msg : String)
deriving DecidableEq, Repr

/-- Connection configuration, owned by the session for its lifetime. -/
structure ConnectionConfig where
  host : String
  port : Nat
  database : String
  user : String
  password : String
  dbschema : String
deriving DecidableEq, Repr

/-- The observable behaviour of a statement cursor opened on the
backend: whether executing raises, the result-set description (ordered
column names, absent for statements without a result set), and the
rows the cursor would yield. -/
structure CursorBehavior where
  execFails : Bool
  description : Option (List String)
  rows : List (List SqlValue)
deriving DecidableEq, Repr

/-- The live backend connection handle: its autocommit flag and the
behaviour of the cursor it hands out. -/
structure BackendConn where
  autocommit : Bool
  cursor : CursorBehavior
deriving DecidableEq, Repr

/-- Backend work performed by one session call, in order. -/
inductive DbEvent where
  | openCursor
  | execStmt (sql : String) (params : List SqlValue)
  | commitTx
  | closeCursor
  | closeConn
deriving DecidableEq, Repr

/-- Modelled from the spec: the session manager owns one backend
connection handle (present or absent), the configuration, and the
column names of the most recent result set. -/
structure HoloConnect where
  config : ConnectionConfig
  connection : Option BackendConn
  res_columns : Option (List String)
deriving DecidableEq, Repr

/-- A freshly created, disconnected session. -/
def HoloConnect.new (cfg : ConnectionConfig) : HoloConnect :=
  { config := cfg, connection := none, res_columns := none }

/-- Modelled from the spec: execute runs one statement; without a live
connection it fails fast with a ConnectionError and performs no
backend work; use_transaction defaults to the negation of the
autocommit flag; the cursor is released on every exit path and a
backend failure is re-raised as a QueryError. -/
def HoloConnect.execute (conn : HoloConnect) (stmt : String) (params : List SqlValue)
    (use_transaction : Option Bool) : Except HoloError HoloConnect × List DbEvent :=
  match conn.connection with
  | none => (.error (.connectionError "Connection not established"), [])
  | some bc =>
    if bc.cursor.execFails then
      (.error (.queryError "Error executing SQL query"),
       [.openCursor, .execStmt stmt params, .closeCursor])
    else
      (.ok { conn with res_columns := bc.cursor.description },
       [.openCursor, .execStmt stmt params] ++
         (if use_transaction.getD (!bc.autocommit) then [.commitTx] else []) ++
         [.closeCursor])

/-- Modelled from the spec: fetchone opens a cursor, executes,
retrieves at most one row, commits when the session is non-autocommit,
captures result columns, and releases the cursor on every exit path. -/
def HoloConnect.fetchone (conn : HoloConnect) (stmt : String) (params : List SqlValue) :
    Except HoloError (Option (List SqlValue) × HoloConnect) × List DbEvent :=
  match conn.connection with
  | none => (.error (.connectionError "Connection not established"), [])
  | some bc =>
    if bc.cursor.execFails then
      (.error (.queryError "Error executing SQL query"),
       [.openCursor, .execStmt stmt params, .closeCursor])
    else
      (.ok (bc.cursor.rows.head?, { conn with res_columns := bc.cursor.description }),
       [.openCursor, .execStmt stmt params] ++
         (if bc.autocommit then [] else [.commitTx]) ++ [.closeCursor])

/-- Modelled from the spec: fetchall retrieves all rows, with the same
cursor, commit and error discipline as fetchone. -/
def HoloConnect.fetchall (conn : HoloConnect) (stmt : String) (params : List SqlValue) :
    Except HoloError (List (List SqlValue) × HoloConnect) × List DbEvent :=
  match conn.connection with
  | none => (.error (.connectionError "Connection not established"), [])
  | some bc =>
    if bc.cursor.execFails then
      (.error (.queryError "Error executing SQL query"),
       [.openCursor, .execStmt stmt params, .closeCursor])
    else
      (.ok (bc.cursor.rows, { conn with res_columns := bc.cursor.description }),
       [.openCursor, .execStmt stmt params] ++
         (if bc.autocommit then [] else [.commitTx]) ++ [.closeCursor])

/-- Modelled from the spec: fetchmany retrieves at most size rows,
with the same cursor, commit and error discipline as fetchone. -/
def HoloConnect.fetchmany (conn : HoloConnect) (stmt : String) (params : List SqlValue)
    (size : Nat) : Except HoloError (List (List SqlValue) × HoloConnect) × List DbEvent :=
  match conn.connection with
  | none => (.error (.connectionError "Connection not established"), [])
  | some bc =>
    if bc.cursor.execFails then
      (.error (.queryError "Error executing SQL query"),
       [.openCursor, .execStmt stmt params, .closeCursor])
    else
      (.ok (bc.cursor.rows.take size, { conn with res_columns := bc.cursor.description }),
       [.openCursor, .execStmt stmt params] ++
         (if bc.autocommit then [] else [.commitTx]) ++ [.closeCursor])

/-- Modelled from the spec: close tears down the handle and resets
column metadata; closing an already-closed session does nothing and
never raises. -/
def HoloConnect.close (conn : HoloConnect) : HoloConnect × List DbEvent :=
  match conn.connection with
  | none => (conn, [])
  | some _ => ({ conn with connection := none, res_columns := none }, [.closeConn])

/-- get_result_columns reflects the most recent execution. -/
def HoloConnect.get_result_columns (conn : HoloConnect) : Option (List String) :=
  conn.res_columns

/-- Number of commit events in a backend trace. -/
def countCommits : List DbEvent → Nat
  | [] => 0
  | .commitTx :: t => countCommits t + 1
  | .openCursor :: t => countCommits t
  | .execStmt _ _ :: t => countCommits t
  | .closeCursor :: t => countCommits t
  | .closeConn :: t => countCommits t

/-- Number of cursor-open events in a backend trace. -/
def countCursorOpens : List DbEvent → Nat
  | [] => 0
  | .openCursor :: t => countCursorOpens t + 1
  | .commitTx :: t => countCursorOpens t
  | .execStmt _ _ :: t => countCursorOpens t
  | .closeCursor :: t => countCursorOpens t
  | .closeConn :: t => countCursorOpens t

/-- Number of cursor-close events in a backend trace. -/
def countCursorCloses : List DbEvent → Nat
  | [] => 0
  | .closeCursor :: t => countCursorCloses t + 1
  | .openCursor :: t => countCursorCloses t
  | .commitTx :: t => countCursorCloses t
  | .execStmt _ _ :: t => countCursorCloses t
  | .closeConn :: t => countCursorCloses t

/-- Modelled from the spec: the table facade holds a table name, an
optional alias, and the sticky per-column distance-method cache. -/
structure HoloTable where
  name : String
  table_alias : Option String
  column_distance_methods : List (String × String)
deriving DecidableEq, Repr

/-- A freshly constructed table facade with an empty distance cache. -/
def HoloTable.new (name : String) (table_alias : Option String := none) : HoloTable :=
  { name := name, table_alias := table_alias, column_distance_methods := [] }

/-- Run an optional compiled statement through a session: absence of a
statement touches neither the session nor the backend. -/
def runStatement (conn : HoloConnect) (st : Option (String × List SqlValue)) :
    Except HoloError HoloConnect × List DbEvent :=
  match st with
  | none => (.ok conn, [])
  | some (s, ps) => conn.execute s ps none

/-- Modelled from the spec: insert_multi on the table facade builds
one multi-row INSERT against the table name and returns the same
table; an empty values list builds no statement at all. -/
def HoloTable.insert_multi (tbl : HoloTable) (rows : List (List SqlValue))
    (cols : Option (List String)) : HoloTable × Option (String × List SqlValue) :=
  (tbl, HoloSearch.insert_multi tbl.name rows cols)

/-- Modelled from the spec: overwrite builds an atomic
replace-all-rows statement from either literal values or a compiled
SELECT expression; exactly one of the two sources must be given, each
violation failing fast with its own validation message before any
backend execution. -/
def HoloTable.overwrite (tbl : HoloTable) (values : Option (List (List SqlValue)))
    (values_expression : Option String) : Except HoloError (String × List SqlValue) :=
  match values, values_expression with
  | none, none =>
    .error (.sqlError "Either values or values_expression must be provided")
  | some _, some _ =>
    .error (.sqlError "Only one of values or values_expression can be provided")
  | some vs, none =>
    .ok ("INSERT OVERWRITE " ++ quoteIdent tbl.name ++ " VALUES " ++
           sepJoin ", " (vs.map fun r => phGroup r.length) ++ ";",
         vs.flatten)
  | none, some e =>
    .ok ("INSERT OVERWRITE " ++ quoteIdent tbl.name ++ " " ++ e ++ ";", [])

/-- A JSON value, as parsed from the engine-side stored vector-index
property payload. -/
inductive Json where
  | null
  | bool (b : Bool)
  | num (raw : String)
  | str (s : String)
  | arr (items : List Json)
  | obj (fields : List (String × Json))

/-- JSON whitespace. -/
def jsonWs (c : Char) : Bool := c = ' ' || c = '\n' || c = '\t' || c = '\r'

/-- Drop leading JSON whitespace. -/
def dropWs (cs : List Char) : List Char := cs.dropWhile jsonWs

/-- Consume the body of a JSON string literal after its opening quote,
returning the raw content and the remaining input; a backslash always
escapes the following character. -/
def strBody : List Char → Option (List Char × List Char)
  | [] => none
  | '\"' :: rest => some ([], rest)
  | '\\' :: [] => none
  | '\\' :: e :: rest => (strBody rest).map fun p => ('\\' :: e :: p.1, p.2)
  | c :: rest => (strBody rest).map fun p => (c :: p.1, p.2)

/-- Consume the exact characters of a keyword literal. -/
def stripToken : List Char → List Char → Option (List Char)
  | [], cs => some cs
  | t :: ts, c :: cs => if c = t then stripToken ts cs else none
  | _ :: _, [] => none

/-- Consume the digits, dot, sign and exponent characters of a JSON
number token, after its first character was accepted. -/
def numBody (cs : List Char) : List Char × List Char :=
  (cs.takeWhile (fun c => c.isDigit || c = '.' || c = '-' || c = '+' || c = 'e' || c = 'E'),
   cs.dropWhile (fun c => c.isDigit || c = '.' || c = '-' || c = '+' || c = 'e' || c = 'E'))

mutual

/-- Modelled from the spec: a recursive-descent parser for the JSON
option payload stored as the table's vector-index property; fuel
bounds the recursion depth. -/
def parseVal (fuel : Nat) (cs : List Char) : Option (Json × List Char) :=
  match fuel with
  | 0 => none
  | f + 1 =>
    match dropWs cs with
    | [] => none
    | c :: rest =>
      if c = '\"' then
        (strBody rest).map fun p => (Json.str (String.mk p.1), p.2)
      else if c = '\x7b' then
        match dropWs rest with
        | d :: rest2 =>
          if d = '\x7d' then some (Json.obj [], rest2)
          else (parseFields f (d :: rest2)).map fun p => (Json.obj p.1, p.2)
        | [] => none
      else if c = '[' then
        match dropWs rest with
        | d :: rest2 =>
          if d = ']' then some (Json.arr [], rest2)
          else (parseItems f (d :: rest2)).map fun p => (Json.arr p.1, p.2)
        | [] => none
      else if c = 't' then (stripToken ['r', 'u', 'e'] rest).map fun r => (Json.bool true, r)
      else if c = 'f' then (stripToken ['a', 'l', 's', 'e'] rest).map fun r => (Json.bool false, r)
      else if c = 'n' then (stripToken ['u', 'l', 'l'] rest).map fun r => (Json.null, r)
      else if c = '-' || c.isDigit then
        some (Json.num (String.mk (c :: (numBody rest).1)), (numBody rest).2)
      else none

/-- Parse the comma-separated items of a nonempty JSON array up to its
closing bracket. -/
def parseItems (fuel : Nat) (cs : List Char) : Option (List Json × List Char) :=
  match fuel with
  | 0 => none
  | f + 1 =>
    match parseVal f cs with
    | none => none
    | some (v, rest) =>
      match dropWs rest with
      | ',' :: rest2 => (parseItems f rest2).map fun p => (v :: p.1, p.2)
      | ']' :: rest2 => some ([v], rest2)
      | _ => none

/-- Parse the comma-separated key-value fields of a nonempty JSON
object up to its closing brace. -/
def parseFields (fuel : Nat) (cs : List Char) : Option (List (String × Json) × List Char) :=
  match fuel with
  | 0 => none
  | f + 1 =>
    match dropWs cs with
    | '\"' :: rest =>
      match strBody rest with
      | none => none
      | some (key, rest2) =>
        match dropWs rest2 with
        | ':' :: rest3 =>
          match parseVal f rest3 with
          | none => none
          | some (v, rest4) =>
            match dropWs rest4 with
            | ',' :: rest5 =>
              (parseFields f rest5).map fun p => ((String.mk key, v) :: p.1, p.2)
            | d :: rest5 =>
              if d = '\x7d' then some ([(String.mk key, v)], rest5) else none
            | [] => none
        | _ => none
    | _ => none

end

/-- Parse a complete JSON document, rejecting trailing garbage; none
means the payload is not valid JSON. -/
def parseJson? (s : String) : Option Json :=
  match parseVal (s.length + 1) s.data with
  | some (v, rest) => if (dropWs rest).isEmpty then some v else none
  | none => none

/-- Modelled from the spec: get_vector_index_info reads the table's
stored vector-index property; it returns none both when the backend
returns no row and when the stored payload is not valid JSON, never
raising on a malformed payload. -/
def HoloTable.get_vector_index_info (_tbl : HoloTable) (fetched : Option String) :
    Option Json :=
  match fetched with
  | none => none
  | some payload => parseJson? payload

/-- Association lookup in a JSON object's field list. -/
def jLookup : List (String × Json) → String → Option Json
  | [], _ => none
  | (k, v) :: t, key => if k = key then some v else jLookup t key

/-- Association lookup in the per-column distance-method cache. -/
def lookupAssoc : List (String × String) → String → Option String
  | [], _ => none
  | (k, v) :: t, key => if k = key then some v else lookupAssoc t key

/-- Modelled from the spec: extract the distance method recorded for a
column from the parsed vector-index info, none when absent or of an
unexpected shape. -/
def dmFromInfo (info : Option Json) (column : String) : Option String :=
  match info with
  | some (Json.obj fields) =>
    match jLookup fields column with
    | some (Json.obj props) =>
      match jLookup props "distance_method" with
      | some (Json.str m) => some m
      | _ => none
    | _ => none
  | _ => none

/-- Modelled from the spec: search_vector resolves the distance method
from the explicit argument, else from the sticky per-column cache,
else from backend index introspection (caching a hit); with no method
available it fails fast with the missing-distance-method domain
error.  The fetched argument is the introspection payload the backend
would return. -/
def HoloTable.search_vector (tbl : HoloTable) (column : String)
    (distance_method : Option String) (fetched : Option String) :
    Except HoloError (String × HoloTable) :=
  match distance_method with
  | some m => .ok (m, tbl)
  | none =>
    match lookupAssoc tbl.column_distance_methods column with
    | some m => .ok (m, tbl)
    | none =>
      match dmFromInfo (tbl.get_vector_index_info fetched) column with
      | some m =>
        .ok (m, { tbl with
                    column_distance_methods :=
                      tbl.column_distance_methods ++ [(column, m)] })
      | none => .error (.sqlError "Distance method must be set")

/-- A sample connection configuration for concrete instantiations. -/
def sampleConfig : ConnectionConfig :=
  { host := "localhost", port := 80, database := "test_db", user := "user",
    password := "secret", dbschema := "public" }

/-- A session that never connected: its handle is absent. -/
def closedSession : HoloConnect := HoloConnect.new sampleConfig

/-- A well-behaved cursor with a two-column result set and one row. -/
def sampleCursor : CursorBehavior :=
  { execFails := false, description := some ["id", "name"],
    rows := [[SqlValue.int 1, SqlValue.text "test"]] }

/-- A cursor whose execution raises in the backend. -/
def failingCursor : CursorBehavior :=
  { execFails := true, description := none, rows := [] }

/-- A connected session over a given backend connection. -/
def sessionWith (b : BackendConn) : HoloConnect :=
  { config := sampleConfig, connection := some b, res_columns := none }

/-- A connected session whose backend has autocommit disabled. -/
def acFalseSession : HoloConnect := sessionWith { autocommit := false, cursor := sampleCursor }

/-- A connected session whose backend has autocommit enabled. -/
def acTrueSession : HoloConnect := sessionWith { autocommit := true, cursor := sampleCursor }

/-- A connected session whose backend rejects every statement. -/
def failSession : HoloConnect := sessionWith { autocommit := true, cursor := failingCursor }

/-- A table facade with an empty distance-method cache. -/
def vecTable : HoloTable := HoloTable.new "test_table"

/-- A table facade whose distance-method cache holds an entry for the
vector column. -/
def cachedVecTable : HoloTable :=
  { name := "test_table", table_alias := none,
    column_distance_methods := [("vector_col", "Cosine")] }

theorem pcount_append (a b : String) : pcount (a ++ b) = pcount a + pcount b := by
  simp [pcount, String.data_append]

theorem pcount_lparen : pcount "(" = 0 := rfl

theorem pcount_rparen : pcount ")" = 0 := rfl

theorem pcount_semi : pcount ";" = 0 := rfl

theorem pcount_commaSp : pcount ", " = 0 := rfl

theorem pcount_space : pcount " " = 0 := rfl

theorem pcount_dquote : pcount "\"" = 0 := rfl

theorem pcount_insert_kw : pcount "INSERT INTO " = 0 := rfl

theorem pcount_values_kw : pcount " VALUES " = 0 := rfl

theorem pcount_ph : pcount "%s" = 1 := rfl

theorem pcount_sepJoin (sep : String) (hsep : pcount sep = 0) :
    ∀ xs : List String, pcount (sepJoin sep xs) = (xs.map pcount).sum
  | [] => by simp [sepJoin, pcount]
  | [x] => by simp [sepJoin]
  | x :: y :: t => by
    have ih := pcount_sepJoin sep hsep (y :: t)
    simp only [sepJoin, pcount_append, hsep, List.map_cons, List.sum_cons] at ih ⊢
    omega

theorem count_escapeChars (l : List Char) : (escapeChars l).count '%' = l.count '%' := by
  induction l with
  | nil => simp [escapeChars]
  | cons c cs ih =>
    by_cases h : c = '\"'
    · subst h
      simp [escapeChars, ih, List.count_cons]
    · simp [escapeChars, h, ih, List.count_cons]

theorem pcount_quoteIdent (s : String) (h : pcount s = 0) : pcount (quoteIdent s) = 0 := by
  have he : pcount (String.mk (escapeChars s.data)) = pcount s := count_escapeChars s.data
  rw [quoteIdent, pcount_append, pcount_append, he, h, pcount_dquote]

theorem pcount_phGroup (n : Nat) : pcount (phGroup n) = n := by
  have h := pcount_sepJoin ", " pcount_commaSp (List.replicate n "%s")
  simp only [List.map_replicate, pcount_ph] at h
  rw [phGroup, pcount_append, pcount_append, h, pcount_lparen, pcount_rparen,
    List.sum_replicate, smul_eq_mul, mul_one]
  omega

theorem pcount_columnList (cols : List String) (hc : ∀ c ∈ cols, pcount c = 0) :
    pcount (columnList cols) = 0 := by
  have h := pcount_sepJoin ", " pcount_commaSp (cols.map quoteIdent)
  have hz : ((cols.map quoteIdent).map pcount).sum = 0 := by
    apply List.sum_eq_zero
    intro x hx
    simp only [List.map_map, List.mem_map, Function.comp] at hx
    obtain ⟨c, hc', rfl⟩ := hx
    exact pcount_quoteIdent c (hc c hc')
  rw [columnList, pcount_append, pcount_append, h, hz, pcount_lparen, pcount_rparen]

theorem pcount_insertInto (t : String) (co : Option (List String)) (ht : pcount t = 0)
    (hc : ∀ cs, co = some cs → ∀ c ∈ cs, pcount c = 0) : pcount (insertInto t co) = 0 := by
  cases co with
  | none =>
    show pcount ("INSERT INTO " ++ quoteIdent t ++ "") = 0
    rw [pcount_append, pcount_append, pcount_insert_kw, pcount_quoteIdent t ht]
    rfl
  | some cs =>
    have hcl := pcount_columnList cs (hc cs rfl)
    show pcount ("INSERT INTO " ++ quoteIdent t ++ (" " ++ columnList cs)) = 0
    rw [pcount_append, pcount_append, pcount_append, pcount_insert_kw,
      pcount_quoteIdent t ht, pcount_space, hcl]

theorem sum_map_length {α : Type} :
    ∀ (rows : List (List α)) (n : Nat), (∀ r ∈ rows, r.length = n) →
      (rows.map List.length).sum = rows.length * n
  | [], _, _ => by simp
  | r :: t, n, hn => by
    have ih := sum_map_length t n (fun x hx => hn x (List.mem_cons_of_mem r hx))
    have hr := hn r (List.mem_cons_self r t)
    simp only [List.map_cons, List.sum_cons, List.length_cons, hr, ih]
    ring

/-- Claim C1: insert_one on table t with a non-empty values list and an
explicit column list compiles to exactly
INSERT INTO "t" (quoted columns) VALUES (one placeholder per value);
with the values, in order, as the parameter tuple; insert_one without
column names omits the column list; and insert_multi with k rows of n
values renders k parenthesized placeholder groups and the flat
row-major parameter tuple of the k*n values, so placeholder positions
and parameter positions stay aligned. -/
theorem claim_C1 (t : String) (cols : List String) (vals : List SqlValue)
    (rows : List (List SqlValue)) (n : Nat)
    (hvals : vals ≠ []) (hrows : rows ≠ [])
    (hn : ∀ r ∈ rows, r.length = n)
    (ht : pcount t = 0) (hc : ∀ c ∈ cols, pcount c = 0) :
    (insert_one t vals (some cols)).1 =
        "INSERT INTO " ++ quoteIdent t ++ " " ++ "(" ++
          sepJoin ", " (cols.map quoteIdent) ++ ")" ++ " VALUES " ++
          phGroup vals.length ++ ";"
    ∧ pcount (insert_one t vals (some cols)).1 = vals.length
    ∧ (insert_one t vals (some cols)).2 = vals
    ∧ (insert_one t vals none).1 =
        "INSERT INTO " ++ quoteIdent t ++ " VALUES " ++ phGroup vals.length ++ ";"
    ∧ (∃ sql, insert_multi t rows (some cols) = some (sql, rows.flatten)
        ∧ sql = "INSERT INTO " ++ quoteIdent t ++ " " ++ "(" ++
                  sepJoin ", " (cols.map quoteIdent) ++ ")" ++ " VALUES " ++
                  sepJoin ", " (rows.map fun r => phGroup r.length) ++ ";"
        ∧ pcount sql = rows.length * n
        ∧ rows.flatten.length = rows.length * n) := by
  have hco : ∀ cs, (some cols : Option (List String)) = some cs → ∀ c ∈ cs, pcount c = 0 :=
    fun cs hcs => (Option.some.inj hcs) ▸ hc
  have h0 := pcount_insertInto t (some cols) ht hco
  have hmulti : pcount (sepJoin ", " (rows.map fun r => phGroup r.length)) =
      rows.length * n := by
    have h := pcount_sepJoin ", " pcount_commaSp (rows.map fun r => phGroup r.length)
    rw [h, List.map_map]
    have hcomp : (pcount ∘ fun r => phGroup r.length) = fun r : List SqlValue => r.length := by
      funext r
      simp [Function.comp, pcount_phGroup]
    rw [hcomp]
    exact sum_map_length rows n hn
  refine ⟨?_, ?_, rfl, ?_, ?_⟩
  · simp only [insert_one, insertInto, columnList, String.append_assoc]
  · show pcount (insertInto t (some cols) ++ " VALUES " ++ phGroup vals.length ++ ";") =
      vals.length
    rw [pcount_append, pcount_append, pcount_append, h0, pcount_values_kw,
      pcount_phGroup, pcount_semi]
    omega
  · simp only [insert_one, insertInto, String.append_assoc, String.empty_append]
  · refine ⟨insertInto t (some cols) ++ " VALUES " ++
      sepJoin ", " (rows.map fun r => phGroup r.length) ++ ";", ?_, ?_, ?_, ?_⟩
    · simp [insert_multi, hrows]
    · simp only [insertInto, columnList, String.append_assoc]
    · rw [pcount_append, pcount_append, pcount_append, h0, pcount_values_kw,
        hmulti, pcount_semi]
      omega
    · rw [List.length_flatten]
      exact sum_map_length rows n hn

theorem claim_C1_witness :
    ([SqlValue.int 1, SqlValue.text "test", SqlValue.text "v"] : List SqlValue) ≠ []
    ∧ (insert_one "test_table" [SqlValue.int 1, SqlValue.text "test", SqlValue.text "v"]
         (some ["id", "content", "vector"])).1 =
        "INSERT INTO \"test_table\" (\"id\", \"content\", \"vector\") VALUES (%s, %s, %s);"
    ∧ (insert_one "test_table" [SqlValue.int 1, SqlValue.text "test", SqlValue.text "v"]
         none).1 =
        "INSERT INTO \"test_table\" VALUES (%s, %s, %s);" := by
  have h := claim_C1 "test_table" ["id", "content", "vector"]
    [SqlValue.int 1, SqlValue.text "test", SqlValue.text "v"]
    [[SqlValue.int 1, SqlValue.text "a"], [SqlValue.int 2, SqlValue.text "b"]] 2
    (by decide) (by decide) (by decide) (by decide) (by decide)
  exact ⟨by decide, h.1.trans rfl, h.2.2.2.1.trans rfl⟩

/-- Claim C2: on a session whose connection handle is absent, execute,
fetchone, fetchall and fetchmany all fail with ConnectionError carrying
the connection-not-established message while performing no backend
work; close always leaves the handle absent, and a second close on an
already-closed session is a no-op that raises nothing. -/
theorem claim_C2 (conn other : HoloConnect) (stmt : String) (params : List SqlValue)
    (utx : Option Bool) (size : Nat) (h : conn.connection = none) :
    conn.execute stmt params utx =
        (.error (.connectionError "Connection not established"), [])
    ∧ conn.fetchone stmt params =
        (.error (.connectionError "Connection not established"), [])
    ∧ conn.fetchall stmt params =
        (.error (.connectionError "Connection not established"), [])
    ∧ conn.fetchmany stmt params size =
        (.error (.connectionError "Connection not established"), [])
    ∧ other.close.1.connection = none
    ∧ conn.close = (conn, []) := by
  refine ⟨?_, ?_, ?_, ?_, ?_, ?_⟩
  · simp [HoloConnect.execute, h]
  · simp [HoloConnect.fetchone, h]
  · simp [HoloConnect.fetchall, h]
  · simp [HoloConnect.fetchmany, h]
  · cases ho : other.connection <;> simp [HoloConnect.close, ho]
  · simp [HoloConnect.close, h]

theorem claim_C2_witness :
    closedSession.connection = none
    ∧ closedSession.execute "SELECT 1" [] none =
        (.error (.connectionError "Connection not established"), [])
    ∧ closedSession.close = (closedSession, []) :=
  ⟨rfl, (claim_C2 closedSession closedSession "SELECT 1" [] none 5 rfl).1,
   (claim_C2 closedSession closedSession "SELECT 1" [] none 5 rfl).2.2.2.2.2⟩

theorem countCommits_append (a b : List DbEvent) :
    countCommits (a ++ b) = countCommits a + countCommits b := by
  induction a with
  | nil => simp [countCommits]
  | cons e t ih => cases e <;> simp [countCommits, ih] <;> omega

theorem countCursorOpens_append (a b : List DbEvent) :
    countCursorOpens (a ++ b) = countCursorOpens a + countCursorOpens b := by
  induction a with
  | nil => simp [countCursorOpens]
  | cons e t ih => cases e <;> simp [countCursorOpens, ih] <;> omega

theorem countCursorCloses_append (a b : List DbEvent) :
    countCursorCloses (a ++ b) = countCursorCloses a + countCursorCloses b := by
  induction a with
  | nil => simp [countCursorCloses]
  | cons e t ih => cases e <;> simp [countCursorCloses, ih] <;> omega

theorem countCommits_if (b : Bool) :
    countCommits (if b then [DbEvent.commitTx] else []) = if b then 1 else 0 := by
  cases b <;> rfl

theorem countCursorOpens_if (b : Bool) :
    countCursorOpens (if b then [DbEvent.commitTx] else []) = 0 := by
  cases b <;> rfl

theorem countCursorCloses_if (b : Bool) :
    countCursorCloses (if b then [DbEvent.commitTx] else []) = 0 := by
  cases b <;> rfl

/-- Claim C3: on a connected session, execute with use_transaction
unset commits exactly when the backend connection's autocommit flag is
off — once when autocommit is false, never when autocommit is true. -/
theorem claim_C3 (conn : HoloConnect) (bc : BackendConn) (stmt : String)
    (params : List SqlValue) (h : conn.connection = some bc)
    (hok : bc.cursor.execFails = false) :
    countCommits (conn.execute stmt params none).2 =
      if bc.autocommit then 0 else 1 := by
  cases hac : bc.autocommit <;>
    simp [HoloConnect.execute, h, hok, hac, countCommits_append, countCommits_if,
      countCommits]

theorem claim_C3_witness :
    countCommits (acFalseSession.execute "INSERT INTO test VALUES (1)" [] none).2 = 1
    ∧ countCommits (acTrueSession.execute "INSERT INTO test VALUES (1)" [] none).2 = 0 := by
  constructor
  · have h := claim_C3 acFalseSession { autocommit := false, cursor := sampleCursor }
      "INSERT INTO test VALUES (1)" [] rfl rfl
    simpa using h
  · have h := claim_C3 acTrueSession { autocommit := true, cursor := sampleCursor }
      "INSERT INTO test VALUES (1)" [] rfl rfl
    simpa using h

/-- Claim C4: on a connected session whose backend rejects the
statement, execute, fetchone, fetchall and fetchmany all re-raise the
failure as QueryError; and on every exit path, success or error, the
cursor opened for the call is closed — each call opens exactly one
cursor and closes exactly one cursor. -/
theorem claim_C4 (conn : HoloConnect) (bc : BackendConn) (stmt : String)
    (params : List SqlValue) (utx : Option Bool) (size : Nat)
    (h : conn.connection = some bc) :
    (bc.cursor.execFails = true →
        (conn.execute stmt params utx).1 =
            .error (.queryError "Error executing SQL query")
      ∧ (conn.fetchone stmt params).1 =
            .error (.queryError "Error executing SQL query")
      ∧ (conn.fetchall stmt params).1 =
            .error (.queryError "Error executing SQL query")
      ∧ (conn.fetchmany stmt params size).1 =
            .error (.queryError "Error executing SQL query"))
    ∧ countCursorOpens (conn.execute stmt params utx).2 = 1
    ∧ countCursorCloses (conn.execute stmt params utx).2 = 1
    ∧ countCursorOpens (conn.fetchone stmt params).2 = 1
    ∧ countCursorCloses (conn.fetchone stmt params).2 = 1
    ∧ countCursorOpens (conn.fetchall stmt params).2 = 1
    ∧ countCursorCloses (conn.fetchall stmt params).2 = 1
    ∧ countCursorOpens (conn.fetchmany stmt params size).2 = 1
    ∧ countCursorCloses (conn.fetchmany stmt params size).2 = 1 := by
  refine ⟨?_, ?_, ?_, ?_, ?_, ?_, ?_, ?_, ?_⟩
  · intro hf
    refine ⟨?_, ?_, ?_, ?_⟩ <;>
      simp [HoloConnect.execute, HoloConnect.fetchone, HoloConnect.fetchall,
        HoloConnect.fetchmany, h, hf]
  all_goals
    cases hf : bc.cursor.execFails <;>
    cases hac : bc.autocommit <;>
      simp [HoloConnect.execute, HoloConnect.fetchone, HoloConnect.fetchall,
        HoloConnect.fetchmany, h, hf, hac, countCursorOpens_append,
        countCursorCloses_append, countCursorOpens_if, countCursorCloses_if,
        countCursorOpens, countCursorCloses]

theorem claim_C4_witness :
    failingCursor.execFails = true
    ∧ (failSession.execute "INVALID SQL" [] (some true)).1 =
        .error (.queryError "Error executing SQL query")
    ∧ countCursorCloses (failSession.execute "INVALID SQL" [] (some true)).2 = 1 :=
  ⟨rfl,
   ((claim_C4 failSession { autocommit := true, cursor := failingCursor }
       "INVALID SQL" [] (some true) 5 rfl).1 rfl).1,
   (claim_C4 failSession { autocommit := true, cursor := failingCursor }
       "INVALID SQL" [] (some true) 5 rfl).2.2.1⟩

/-- Claim C5: after any successful execution the session's last-result
column list equals the cursor's result-set description — the ordered
column names, or none when the statement produced no result set;
get_result_columns returns exactly that value and returns none on a
fresh session. -/
theorem claim_C5 (conn : HoloConnect) (bc : BackendConn) (cfg : ConnectionConfig)
    (stmt : String) (params : List SqlValue) (utx : Option Bool) (size : Nat)
    (h : conn.connection = some bc) (hok : bc.cursor.execFails = false) :
    (conn.execute stmt params utx).1 =
        .ok { conn with res_columns := bc.cursor.description }
    ∧ (conn.fetchone stmt params).1 =
        .ok (bc.cursor.rows.head?, { conn with res_columns := bc.cursor.description })
    ∧ (conn.fetchall stmt params).1 =
        .ok (bc.cursor.rows, { conn with res_columns := bc.cursor.description })
    ∧ (conn.fetchmany stmt params size).1 =
        .ok (bc.cursor.rows.take size,
             { conn with res_columns := bc.cursor.description })
    ∧ HoloConnect.get_result_columns { conn with res_columns := bc.cursor.description } =
        bc.cursor.description
    ∧ (HoloConnect.new cfg).get_result_columns = none := by
  refine ⟨?_, ?_, ?_, ?_, rfl, rfl⟩ <;>
    simp [HoloConnect.execute, HoloConnect.fetchone, HoloConnect.fetchall,
      HoloConnect.fetchmany, h, hok]

theorem claim_C5_witness :
    (acFalseSession.execute "SELECT * FROM test" [] (some true)).1 =
        .ok { acFalseSession with res_columns := some ["id", "name"] }
    ∧ (HoloConnect.new sampleConfig).get_result_columns = none :=
  ⟨(claim_C5 acFalseSession { autocommit := false, cursor := sampleCursor }
      sampleConfig "SELECT * FROM test" [] (some true) 5 rfl rfl).1,
   (claim_C5 acFalseSession { autocommit := false, cursor := sampleCursor }
      sampleConfig "SELECT * FROM test" [] (some true) 5 rfl rfl).2.2.2.2.2⟩

/-- Claim C6: overwrite with neither values nor values_expression
fails with the missing-input validation error, and with both set fails
with the distinct mutual-exclusion validation error; both failures
produce no statement, so nothing reaches the backend. -/
theorem claim_C6 (tbl : HoloTable) (vs : List (List SqlValue)) (e : String) :
    tbl.overwrite none none =
        .error (.sqlError "Either values or values_expression must be provided")
    ∧ tbl.overwrite (some vs) (some e) =
        .error (.sqlError "Only one of values or values_expression can be provided")
    ∧ ("Either values or values_expression must be provided" : String) ≠
        "Only one of values or values_expression can be provided" :=
  ⟨rfl, rfl, by decide⟩

theorem claim_C6_witness :
    vecTable.overwrite none none =
        .error (.sqlError "Either values or values_expression must be provided")
    ∧ vecTable.overwrite (some [[SqlValue.int 1]]) (some "SELECT 1") =
        .error (.sqlError "Only one of values or values_expression can be provided") :=
  ⟨(claim_C6 vecTable [[SqlValue.int 1]] "SELECT 1").1,
   (claim_C6 vecTable [[SqlValue.int 1]] "SELECT 1").2.1⟩

/-- Claim C7: upsert_one and upsert_multi with update off always
render the conflict action DO NOTHING, and with update on and an
explicit update-column subset render DO UPDATE SET whose assignments
reference exactly that subset through the EXCLUDED alias. -/
theorem claim_C7 (t idx : String) (vals : List SqlValue) (rows : List (List SqlValue))
    (cols updateCols : List String) (hsub : ∀ c ∈ updateCols, c ∈ cols) :
    (upsert_one t idx vals cols false updateCols).1 =
        insertInto t (some cols) ++ " VALUES " ++ phGroup vals.length ++
          " ON CONFLICT (" ++ quoteIdent idx ++ ") " ++ "DO NOTHING" ++ ";"
    ∧ (upsert_multi t idx rows cols false updateCols).1 =
        insertInto t (some cols) ++ " VALUES " ++
          sepJoin ", " (rows.map fun r => phGroup r.length) ++
          " ON CONFLICT (" ++ quoteIdent idx ++ ") " ++ "DO NOTHING" ++ ";"
    ∧ (upsert_one t idx vals cols true updateCols).1 =
        insertInto t (some cols) ++ " VALUES " ++ phGroup vals.length ++
          " ON CONFLICT (" ++ quoteIdent idx ++ ") " ++
          ("DO UPDATE SET " ++ sepJoin ", " (updateCols.map fun c =>
             quoteIdent c ++ " = EXCLUDED." ++ quoteIdent c)) ++ ";"
    ∧ (upsert_multi t idx rows cols true updateCols).1 =
        insertInto t (some cols) ++ " VALUES " ++
          sepJoin ", " (rows.map fun r => phGroup r.length) ++
          " ON CONFLICT (" ++ quoteIdent idx ++ ") " ++
          ("DO UPDATE SET " ++ sepJoin ", " (updateCols.map fun c =>
             quoteIdent c ++ " = EXCLUDED." ++ quoteIdent c)) ++ ";" :=
  ⟨rfl, rfl, rfl, rfl⟩

theorem claim_C7_witness :
    (∀ c ∈ ["name"], c ∈ ["id", "name"])
    ∧ (upsert_one "test_table" "id" [SqlValue.int 1, SqlValue.text "test"]
         ["id", "name"] false ["name"]).1 =
        "INSERT INTO \"test_table\" (\"id\", \"name\") VALUES (%s, %s) ON CONFLICT (\"id\") DO NOTHING;"
    ∧ (upsert_one "test_table" "id" [SqlValue.int 1, SqlValue.text "test"]
         ["id", "name"] true ["name"]).1 =
        "INSERT INTO \"test_table\" (\"id\", \"name\") VALUES (%s, %s) ON CONFLICT (\"id\") DO UPDATE SET \"name\" = EXCLUDED.\"name\";" := by
  have h := claim_C7 "test_table" "id" [SqlValue.int 1, SqlValue.text "test"]
    [[SqlValue.int 1, SqlValue.text "a"]] ["id", "name"] ["name"] (by decide)
  exact ⟨by decide, h.1.trans rfl, h.2.2.1.trans rfl⟩

/-- Claim C8: search_vector without a distance-method argument fails
with the missing-distance-method domain error when the per-column
cache has no entry and backend introspection yields none, and succeeds
without the argument when a distance method for the column is already
cached. -/
theorem claim_C8 (tbl : HoloTable) (column : String) (fetched : Option String) :
    (lookupAssoc tbl.column_distance_methods column = none →
      dmFromInfo (tbl.get_vector_index_info fetched) column = none →
      tbl.search_vector column none fetched =
        .error (.sqlError "Distance method must be set"))
    ∧ ∀ m, lookupAssoc tbl.column_distance_methods column = some m →
        tbl.search_vector column none fetched = .ok (m, tbl) := by
  constructor
  · intro h1 h2
    simp [HoloTable.search_vector, h1, h2]
  · intro m hm
    simp [HoloTable.search_vector, hm]

theorem claim_C8_witness :
    vecTable.search_vector "vector_col" none none =
        .error (.sqlError "Distance method must be set")
    ∧ cachedVecTable.search_vector "vector_col" none none =
        .ok ("Cosine", cachedVecTable) :=
  ⟨(claim_C8 vecTable "vector_col" none).1 rfl rfl,
   (claim_C8 cachedVecTable "vector_col" none).2 "Cosine" rfl⟩

/-- Claim C9: insert_multi with an empty values list is a complete
no-op at the backend boundary: no statement is built, the same table
value is returned, and running the absent statement through any
session leaves the session unchanged with an empty backend trace. -/
theorem claim_C9 (tbl : HoloTable) (cols : Option (List String)) (conn : HoloConnect) :
    tbl.insert_multi [] cols = (tbl, none)
    ∧ runStatement conn (tbl.insert_multi [] cols).2 = (.ok conn, []) := by
  constructor
  · simp [HoloTable.insert_multi, insert_multi]
  · simp [HoloTable.insert_multi, insert_multi, runStatement]

/-- Claim C10: get_vector_index_info returns none rather than raising
both when the backend returns no row for the vector-index property and
when the stored payload fails to parse as JSON. -/
theorem claim_C10 (tbl : HoloTable) (s : String) :
    tbl.get_vector_index_info none = none
    ∧ (parseJson? s = none → tbl.get_vector_index_info (some s) = none) :=
  ⟨rfl, fun h => by simp [HoloTable.get_vector_index_info, h]⟩

theorem claim_C10_witness :
    vecTable.get_vector_index_info none = none
    ∧ vecTable.get_vector_index_info (some "invalid json") = none :=
  ⟨(claim_C10 vecTable "invalid json").1,
   (claim_C10 vecTable "invalid json").2 rfl⟩

end HoloSearch
